import Mathlib

/-
  Verification of the Doky8 analysis-and-decision pipeline against its
  natural-language specification.

  Shallow embedding conventions:
  * Python floats are modelled as rationals (ℚ); all constants appearing in the
    source (0.80, 0.95, 2%, ...) are exact binary/decimal values, so ℚ is faithful.
  * Python dicts with a fixed key set are modelled as Lean structures; a key that
    a producer may omit and that consumers read with a default (dict.get) is
    modelled as an Option field (absent = none) or, where the consumer's default
    is a plain value, as a field initialised to that default.
  * Python lists are Lean lists; negative-slice idioms xs[-k:] are modelled by
    lastN k xs (equal to Python's semantics for every length).
  * Python max()/min() over a non-empty list are pymax/pymin; the [] case (which
    raises in Python) returns 0 and is unreachable at every guarded call site.
  * Division by zero (which raises in Python) yields 0 in ℚ; no theorem below
    depends on a value produced on such a path.
-/

namespace Doky

/-- Python max(xs) over a list of rationals; Python raises on [], every call
site below guards non-emptiness, the 0 default is unreachable. -/
def pymax : List ℚ → ℚ
  | [] => 0
  | x :: xs => xs.foldl max x

/-- Python min(xs); same conventions as pymax. -/
def pymin : List ℚ → ℚ
  | [] => 0
  | x :: xs => xs.foldl min x

/-- Arithmetic mean, np.mean / pandas Series.mean over a non-empty list. -/
def pymean (l : List ℚ) : ℚ := l.sum / l.length

/-- Python xs[-k:] (for every list length, matching Python slice semantics). -/
def lastN (k : ℕ) (xs : List α) : List α := xs.drop (xs.length - k)

/-- A candle dict: {'open','high','low','close','volume','timestamp','timeframe'}.
The source key 'open' is a Lean keyword and is rendered opn. Raw feed candles
carry the same keys; 'timeframe' is only ever written (never read) by the code
modelled here, and c.get('volume', 0) is modelled as an always-present field. -/
structure Candle where
  opn : ℚ
  high : ℚ
  low : ℚ
  close : ℚ
  volume : ℚ
  timestamp : ℤ
  timeframe : String := ""
deriving DecidableEq, Repr

/-- Placeholder candle used as the (unreachable) default of list indexing. -/
def cdef : Candle := { opn := 0, high := 0, low := 0, close := 0, volume := 0, timestamp := 0 }

instance : Inhabited Candle := ⟨cdef⟩

/- ===== MultiTimeframeSynchronizer (src/core/multi_tf_synchronizer.py) ===== -/

/-- MultiTimeframeSynchronizer._timeframe_to_minutes: tf_map.get(tf, 1). -/
def timeframe_to_minutes (tf : String) : ℕ :=
  if tf = "1m" then 1
  else if tf = "5m" then 5
  else if tf = "15m" then 15
  else if tf = "1h" then 60
  else if tf = "4h" then 240
  else if tf = "1d" then 1440
  else 1

/-- MultiTimeframeSynchronizer._create_resampled_candle: aggregate one bucket. -/
def create_resampled_candle (group : List Candle) (tf : String) : Candle :=
  let opens := group.map (·.opn)
  let highs := group.map (·.high)
  let lows := group.map (·.low)
  let closes := group.map (·.close)
  let volumes := group.map (·.volume)
  { opn := opens.headD 0
  , high := pymax highs
  , low := pymin lows
  , close := closes.getLastD 0
  , volume := volumes.sum
  , timestamp := (group.map (·.timestamp)).getLastD 0
  , timeframe := tf }

/-- The accumulation loop of MultiTimeframeSynchronizer._resample_data:
candles are appended to current_group; when the group reaches tf_minutes
elements it is flushed through _create_resampled_candle and reset. -/
def resample_loop (n : ℕ) (tf : String) (group : List Candle) : List Candle → List Candle
  | [] => []
  | c :: rest =>
      let group1 := group ++ [c]
      if n ≤ group1.length then
        create_resampled_candle group1 tf :: resample_loop n tf [] rest
      else
        resample_loop n tf group1 rest

/-- _resample_data with the bucket size n made explicit (the source computes
n = _timeframe_to_minutes(target_tf); the grouping logic itself is uniform
in n). Empty input returns [] before any grouping. -/
def resampleWith (n : ℕ) (tf : String) (data : List Candle) : List Candle :=
  if data = [] then [] else resample_loop n tf [] data

/-- MultiTimeframeSynchronizer._resample_data(data, target_tf). -/
def resample_data (data : List Candle) (target_tf : String) : List Candle :=
  resampleWith (timeframe_to_minutes target_tf) target_tf data

/-- The bucketing the resampler realises: consecutive groups of exactly n
candles, the trailing incomplete group dropped. -/
def buckets (n : ℕ) (data : List Candle) : List (List Candle) :=
  if _h : 0 < n ∧ n ≤ data.length then
    data.take n :: buckets n (data.drop n)
  else []
termination_by data.length
decreasing_by
  simp only [List.length_drop]
  omega

/- ===== MarketStructureEngine (src/core/market_structure_engine.py) ===== -/

/-- A key level dict {'level','type','strength'} ('type' rendered kind). -/
structure Level where
  level : ℚ
  kind : String
  strength : String
deriving DecidableEq, Repr

/-- A liquidity zone dict {'price','type','timeframe'} ('type' rendered kind). -/
structure Zone where
  price : ℚ
  kind : String
  timeframe : String
deriving DecidableEq, Repr

/-- The dict returned by _analyze_price_action. -/
structure PriceAction where
  opn : ℚ
  high : ℚ
  low : ℚ
  close : ℚ
  body_ratio : ℚ
deriving DecidableEq, Repr

/-- The dict returned by _analyze_volume. The source dict never contains the
key 'oi_increasing'; its only consumer reads it with .get('oi_increasing',
False), so it is modelled as a Bool field that _analyze_volume sets to false. -/
structure VolumeAnalysis where
  volume_trend : String
  volume_spike : Bool
  delta_positive : Bool
  oi_increasing : Bool
deriving DecidableEq, Repr

/-- The dict returned by _analyze_momentum when at least 14 closes exist. -/
structure MomentumData where
  rsi : ℚ
  momentum : String
deriving DecidableEq, Repr

/-- The per-pair analysis dict built by MarketStructureEngine._analyze_pair.
Fields initialised to {} in the source are Option fields (none = empty dict). -/
structure PairAnalysis where
  trend_direction : String
  trend_strength : ℚ
  key_levels : List Level
  liquidity_zones : List Zone
  bos_confirmed : Bool
  choch_confirmed : Bool
  price_action : Option PriceAction
  volume_analysis : Option VolumeAnalysis
  momentum : Option MomentumData
  volatility : String
  primary_tf : String
deriving DecidableEq, Repr

/-- The literal initial dict at the top of _analyze_pair. -/
def initial_pair_analysis : PairAnalysis :=
  { trend_direction := "neutral"
  , trend_strength := 0
  , key_levels := []
  , liquidity_zones := []
  , bos_confirmed := false
  , choch_confirmed := false
  , price_action := none
  , volume_analysis := none
  , momentum := none
  , volatility := "medium"
  , primary_tf := "15m" }

/-- MarketStructureEngine._get_trend_direction: compares the last element of
highs/lows with the first (highs[-1] > highs[0], lows[-1] > lows[0]). -/
def get_trend_direction (highs lows : List ℚ) : String :=
  if highs.length < 2 then "neutral"
  else
    let high_trend := if highs.headD 0 < highs.getLastD 0 then "up" else "down"
    let low_trend := if lows.headD 0 < lows.getLastD 0 then "up" else "down"
    if high_trend = "up" ∧ low_trend = "up" then "bullish"
    else if high_trend = "down" ∧ low_trend = "down" then "bearish"
    else "neutral"

/-- MarketStructureEngine._detect_bos: highs[-1] > max(highs[-10:-1]),
guarded by len(highs) ≥ 20. -/
def detect_bos (highs _lows : List ℚ) : Bool :=
  if highs.length < 20 then false
  else
    let recent_high := highs.getLastD 0
    let prev_highs := (lastN 10 highs).dropLast
    if pymax prev_highs < recent_high then true else false

/-- MarketStructureEngine._detect_choch: the 5-candle directional read differs
from the preceding 5-candle read and is not neutral; guarded by len ≥ 20.
Python xs[-10:-5] is (lastN 10 xs).take 5 for len ≥ 10. -/
def detect_choch (highs lows : List ℚ) : Bool :=
  if highs.length < 20 then false
  else
    let recent_trend := get_trend_direction (lastN 5 highs) (lastN 5 lows)
    let previous_trend :=
      get_trend_direction ((lastN 10 highs).take 5) ((lastN 10 lows).take 5)
    if recent_trend ≠ previous_trend ∧ recent_trend ≠ "neutral" then true else false

/-- MarketStructureEngine._find_key_levels. -/
def find_key_levels (highs lows : List ℚ) : List Level :=
  let resistance := pymax (lastN 20 highs)
  let support := pymin (lastN 20 lows)
  [ { level := support, kind := "support", strength := "strong" }
  , { level := resistance, kind := "resistance", strength := "strong" } ]

/-- MarketStructureEngine._find_liquidity_zones. -/
def find_liquidity_zones (data : List Candle) : List Zone :=
  [ { price := pymax (data.map (·.high)), kind := "liquidity_pool", timeframe := "multiple" }
  , { price := pymin (data.map (·.low)), kind := "liquidity_pool", timeframe := "multiple" } ]

/-- MarketStructureEngine._analyze_price_action over the last 5 candles.
body_ratio divides two means; an all-zero-range window raises in Python and
yields 0 here — no theorem below depends on that value. -/
def analyze_price_action (data : List Candle) : PriceAction :=
  let recent := lastN 5 data
  { opn := (recent.map (·.opn)).getLastD 0
  , high := pymax (recent.map (·.high))
  , low := pymin (recent.map (·.low))
  , close := (recent.map (·.close)).getLastD 0
  , body_ratio :=
      pymean (recent.map (fun c => |c.close - c.opn|)) /
      pymean (recent.map (fun c => c.high - c.low)) }

/-- MarketStructureEngine._analyze_volume. Our candles always carry volume,
so the source's empty-dict branch ('volume' not a column) cannot fire. -/
def analyze_volume (data : List Candle) : VolumeAnalysis :=
  let volumes := data.map (·.volume)
  let recent_volume := pymean (lastN 10 volumes)
  let prev_volume := pymean ((lastN 20 volumes).take 10)
  { volume_trend := if prev_volume < recent_volume then "increasing" else "decreasing"
  , volume_spike := decide (prev_volume * (3/2) < recent_volume)
  , delta_positive := true
  , oi_increasing := false }

/-- MarketStructureEngine._analyze_momentum: simplified RSI over the last 14
price differences; returns the empty dict (none) below 14 closes. -/
def analyze_momentum (data : List Candle) : Option MomentumData :=
  let prices := data.map (·.close)
  if prices.length < 14 then none
  else
    let diffs := List.zipWith (fun b a => b - a) (prices.drop 1) prices
    let gains := diffs.map (fun d => if 0 < d then d else 0)
    let losses := diffs.map (fun d => if d < 0 then -d else 0)
    let avg_gain := pymean (lastN 14 gains)
    let avg_loss := pymean (lastN 14 losses)
    let rsi := if avg_loss = 0 then 100 else 100 - 100 / (1 + avg_gain / avg_loss)
    some { rsi := rsi, momentum := if 50 < rsi then "bullish" else "bearish" }

/-- The dict returned by _analyze_timeframe. It contains exactly the keys
'bos_confirmed', 'choch_confirmed', 'key_levels', 'liquidity_zones',
'price_action', 'volume_analysis', 'momentum' — and in particular no
'trend_direction' key. -/
structure TFAnalysis where
  bos_confirmed : Bool
  choch_confirmed : Bool
  key_levels : List Level
  liquidity_zones : List Zone
  price_action : PriceAction
  volume_analysis : VolumeAnalysis
  momentum : Option MomentumData
deriving DecidableEq, Repr

/-- MarketStructureEngine._analyze_timeframe. -/
def analyze_timeframe (data : List Candle) : TFAnalysis :=
  let highs := data.map (·.high)
  let lows := data.map (·.low)
  { bos_confirmed := detect_bos highs lows
  , choch_confirmed := detect_choch highs lows
  , key_levels := find_key_levels highs lows
  , liquidity_zones := find_liquidity_zones data
  , price_action := analyze_price_action data
  , volume_analysis := analyze_volume data
  , momentum := analyze_momentum data }

/-- analysis.update(tf_analysis): overwrites exactly the keys present in the
_analyze_timeframe dict, leaving 'trend_direction', 'trend_strength',
'volatility' and 'primary_tf' untouched. -/
def applyTFAnalysis (a : PairAnalysis) (t : TFAnalysis) : PairAnalysis :=
  { a with
    bos_confirmed := t.bos_confirmed
  , choch_confirmed := t.choch_confirmed
  , key_levels := t.key_levels
  , liquidity_zones := t.liquidity_zones
  , price_action := some t.price_action
  , volume_analysis := some t.volume_analysis
  , momentum := t.momentum }

/-- MarketStructureEngine.required_data_points (setup_indicators). -/
def required_data_points : ℕ := 100

/-- MarketStructureEngine._determine_primary_trend:
analysis.get('trend_direction', 'neutral') — the key is always present. -/
def determine_primary_trend (a : PairAnalysis) : String := a.trend_direction

/-- MarketStructureEngine._calculate_trend_strength: the constant 0.7. -/
def calculate_trend_strength (_a : PairAnalysis) : ℚ := 7/10

/-- MarketStructureEngine._calculate_volatility: (high-low)/close bucketed.
A present price_action with close = 0 raises in Python; here the ratio is 0 —
no theorem below depends on that path. -/
def calculate_volatility (a : PairAnalysis) : String :=
  let high := match a.price_action with | none => 0 | some p => p.high
  let low := match a.price_action with | none => 0 | some p => p.low
  let close := match a.price_action with | none => 0 | some p => p.close
  if high = 0 then "medium"
  else
    let volatility_ratio := (high - low) / close
    if volatility_ratio > 5/100 then "high"
    else if volatility_ratio < 1/100 then "low"
    else "medium"

/-- MarketStructureEngine._analyze_pair: start from the initial dict, fold the
per-timeframe updates (skipping timeframes with < 100 candles), then assign
trend_direction, trend_strength and volatility in source order. -/
def analyze_pair (timeframes : List (String × List Candle)) : PairAnalysis :=
  let a :=
    timeframes.foldl
      (fun acc td =>
        if td.2.length < required_data_points then acc
        else applyTFAnalysis acc (analyze_timeframe td.2))
      initial_pair_analysis
  let a1 := { a with trend_direction := determine_primary_trend a }
  let a2 := { a1 with trend_strength := calculate_trend_strength a1 }
  { a2 with volatility := calculate_volatility a2 }

/-- MarketStructureEngine.analyze: one _analyze_pair result per input pair. -/
def structure_analyze (tfData : List (String × List (String × List Candle))) :
    List (String × PairAnalysis) :=
  tfData.map (fun pt => (pt.1, analyze_pair pt.2))

/- ===== PatternRecognition (src/core/pattern_recognition.py) ===== -/

/-- One pattern dict. The four detectors emit different key sets; keys a
detector omits are modelled by the stated defaults, and every consumer below
reads a key only on dicts that carry it (guarded by the 'type' value).
'type' is rendered ptype; price_range is the two-element [lo, hi] list.
The timestamp key (datetime.utcnow(), wall-clock) is not modelled: no code in
the verified pipeline reads it. -/
structure PatternEvent where
  ptype : String
  price : ℚ := 0
  price_range : List ℚ := []
  timeframe : String
  strength : String
  direction : String
  active : Bool := false
  confirmed : Bool := false
deriving DecidableEq, Repr

/-- PatternRecognition._detect_order_blocks: i ranges over range(2, len-2);
body/range ratio > 0.7 and the next candle closes above the current high.
The ratio abs(open−close)/(high−low) is evaluated for every i in the range
(it is the first operand of the `and`), so a zero-range candle anywhere in
that range raises ZeroDivisionError, aborting the whole scan: the raise is
modelled as none, the normal return as some. -/
def detect_order_blocks (data : List Candle) (tf : String) : Option (List PatternEvent) :=
  if ∀ j ∈ List.range' 2 (data.length - 4),
      (data.getD j cdef).high ≠ (data.getD j cdef).low then
    some ((List.range' 2 (data.length - 4)).filterMap (fun i =>
      let current := data.getD i cdef
      let next_candle := data.getD (i+1) cdef
      if |current.opn - current.close| / (current.high - current.low) > 7/10 ∧
          current.high < next_candle.close then
        some { ptype := "OB", price := current.close, timeframe := tf
             , strength := "strong", direction := "bullish" }
      else none))
  else none

/-- PatternRecognition._detect_fvg: i ranges over range(1, len-1); a bullish
gap is current.low > prev.high, a bearish gap current.high < prev.low; every
emitted gap dict has 'active': True. -/
def detect_fvg (data : List Candle) (tf : String) : List PatternEvent :=
  (List.range' 1 (data.length - 2)).filterMap (fun i =>
    let current := data.getD i cdef
    let prev := data.getD (i-1) cdef
    if (prev.high < current.low ∨ current.high < prev.low) then
      some { ptype := "FVG"
           , price_range := [min current.low prev.low, max current.high prev.high]
           , timeframe := tf, strength := "medium"
           , direction := if prev.high < current.low then "bullish" else "bearish"
           , active := true }
    else none)

/-- PatternRecognition._detect_sfp: i ranges over range(3, len). -/
def detect_sfp (data : List Candle) (tf : String) : List PatternEvent :=
  (List.range' 3 (data.length - 3)).filterMap (fun i =>
    let current := data.getD i cdef
    let prev := data.getD (i-1) cdef
    if current.low < prev.low ∧ prev.high < current.close then
      some { ptype := "SFP", price := current.low, timeframe := tf
           , strength := "strong", direction := "bullish" }
    else none)

/-- PatternRecognition._detect_mss: i ranges over range(5, len-1); a high above
the max of the previous five highs followed by a lower high. -/
def detect_mss (data : List Candle) (tf : String) : List PatternEvent :=
  (List.range' 5 (data.length - 6)).filterMap (fun i =>
    let current := data.getD i cdef
    let next_candle := data.getD (i+1) cdef
    if pymax (((data.drop (i-5)).take 5).map (·.high)) < current.high ∧
        next_candle.high < current.high then
      some { ptype := "MSS", price := current.high, timeframe := tf
           , strength := "strong", direction := "bearish", confirmed := true }
    else none)

/-- PatternRecognition._scan_timeframe: the four detectors in the insertion
order of self.patterns (OB, FVG, SFP, MSS); the order-block detector runs
first, so its ZeroDivisionError (none) aborts the timeframe scan before the
other detectors contribute. -/
def scan_timeframe (data : List Candle) (tf : String) : Option (List PatternEvent) :=
  match detect_order_blocks data tf with
  | none => none
  | some obs =>
    some (obs ++ detect_fvg data tf ++ detect_sfp data tf ++ detect_mss data tf)

/-- The per-pair dict produced by PatternRecognition._scan_pair. -/
structure PatternData where
  patterns : List PatternEvent
  pattern_count : ℕ
  strong_patterns : List PatternEvent
deriving DecidableEq, Repr

/-- PatternRecognition._scan_pair: concatenate all timeframe scans, skipping
timeframes with fewer than 10 candles. _scan_pair has no handler of its own,
so an exception (none) from any scanned timeframe propagates out of the pair
scan, abandoning the loop. -/
def scan_pair (timeframes : List (String × List Candle)) : Option PatternData :=
  let all :=
    timeframes.foldl
      (fun acc td =>
        match acc with
        | none => none
        | some l =>
          if td.2.length < 10 then some l
          else
            match scan_timeframe td.2 td.1 with
            | none => none
            | some ps => some (l ++ ps))
      (some [])
  match all with
  | none => none
  | some all_patterns =>
    some { patterns := all_patterns
         , pattern_count := all_patterns.length
         , strong_patterns := all_patterns.filter (fun p => p.strength == "strong") }

/-- PatternRecognition.scan: one _scan_pair result per input pair; a pair
whose scan raises is skipped by scan()'s per-pair except-continue, so no
entry appears for it in the pattern analysis dict. -/
def pattern_scan (tfData : List (String × List (String × List Candle))) :
    List (String × PatternData) :=
  tfData.filterMap (fun pt => (scan_pair pt.2).map (fun pd => (pt.1, pd)))

/- ===== ProbabilityEngine (src/core/probability_engine.py) ===== -/

/-- The per-pair dict stored in the probabilities result of calculate. -/
structure ProbResult where
  confidence : ℚ
  buy_probability : ℚ
  sell_probability : ℚ
  reason : String
deriving DecidableEq, Repr

/-- ProbabilityEngine._structure_probability: average of the fired factor
scores, 0.5 when no factor fired. -/
def structure_probability (sd : PairAnalysis) : ℚ :=
  let s1 : ℚ × ℚ :=
    if sd.trend_strength > 7/10 then (8/10, 1) else (0, 0)
  let s2 := if sd.liquidity_zones ≠ [] then (s1.1 + 7/10, s1.2 + 1) else s1
  let s3 := if sd.bos_confirmed then (s2.1 + 9/10, s2.2 + 1) else s2
  let s4 := if sd.choch_confirmed then (s3.1 + 8/10, s3.2 + 1) else s3
  if s4.2 > 0 then s4.1 / s4.2 else 1/2

/-- The per-event weight inside _pattern_probability's loop. -/
def pattern_weight (p : PatternEvent) : ℚ :=
  if p.ptype = "OB" ∧ p.strength = "strong" then 8/10
  else if p.ptype = "FVG" ∧ p.active then 7/10
  else if p.ptype = "MSS" ∧ p.confirmed then 75/100
  else 0

/-- ProbabilityEngine._pattern_probability; the argument is
pattern_analysis.get(pair, {}) — none models the empty default. -/
def pattern_probability (pattern_data : Option PatternData) : ℚ :=
  match pattern_data with
  | none => 1/2
  | some pd =>
    let patterns := pd.patterns
    let score := patterns.foldl (fun acc p => acc + pattern_weight p) 0
    min (score / (max patterns.length 1 : ℕ)) 1

/-- ProbabilityEngine._volume_probability. -/
def volume_probability (sd : PairAnalysis) : ℚ :=
  match sd.volume_analysis with
  | none => 1/2
  | some v =>
    let s1 : ℚ × ℚ := if v.volume_trend = "increasing" then (7/10, 1) else (0, 0)
    let s2 := if v.delta_positive then (s1.1 + 6/10, s1.2 + 1) else s1
    let s3 := if v.oi_increasing then (s2.1 + 5/10, s2.2 + 1) else s2
    if s3.2 > 0 then s3.1 / s3.2 else 1/2

/-- ProbabilityEngine._momentum_probability: 0.7 for RSI strictly inside
(30, 70), else 0.4; 0.5 when the momentum dict is empty; rsi read with
momentum_data.get('rsi', 50) — always present in a non-empty dict. -/
def momentum_probability (sd : PairAnalysis) : ℚ :=
  match sd.momentum with
  | none => 1/2
  | some m => if 30 < m.rsi ∧ m.rsi < 70 then 7/10 else 4/10

/-- ProbabilityEngine._directional_probability: derived from trend_direction
only; pattern_data is accepted and ignored, as in the source. -/
def directional_probability (sd : PairAnalysis) (_pattern_data : Option PatternData) :
    ℚ × ℚ :=
  if sd.trend_direction = "bullish" then (7/10, 3/10)
  else if sd.trend_direction = "bearish" then (3/10, 7/10)
  else (1/2, 1/2)

/-- ProbabilityEngine._generate_reason. -/
def generate_reason (struct_prob pattern_prob volume_prob momentum_prob : ℚ) : String :=
  let reasons :=
    (if struct_prob > 7/10 then ["Strong market structure"] else []) ++
    (if pattern_prob > 7/10 then ["High pattern confidence"] else []) ++
    (if volume_prob > 6/10 then ["Supportive volume"] else []) ++
    (if momentum_prob > 6/10 then ["Good momentum"] else [])
  if reasons = [] then "Mixed signals" else String.intercalate ", " reasons

/-- The loop body of ProbabilityEngine.calculate for one pair: the weighted
combination with weights 0.35/0.30/0.20/0.15 plus the directional split. -/
def pair_probability (sd : PairAnalysis) (pats : Option PatternData) : ProbResult :=
  let struct_prob := structure_probability sd
  let pattern_prob := pattern_probability pats
  let volume_prob := volume_probability sd
  let momentum_prob := momentum_probability sd
  let total_prob :=
    struct_prob * (35/100) + pattern_prob * (30/100) +
    volume_prob * (20/100) + momentum_prob * (15/100)
  let bs := directional_probability sd pats
  { confidence := total_prob
  , buy_probability := bs.1
  , sell_probability := bs.2
  , reason := generate_reason struct_prob pattern_prob volume_prob momentum_prob }

/-- ProbabilityEngine.calculate: one result per structure-analysis pair, the
pattern analysis looked up with pattern_analysis.get(pair, {}). -/
def probability_calculate (structure_analysis : List (String × PairAnalysis))
    (patterns : List (String × PatternData)) : List (String × ProbResult) :=
  structure_analysis.map (fun ps => (ps.1, pair_probability ps.2 (patterns.lookup ps.1)))

/- ===== Settings (src/config/settings.py) and RiskConfig (src/config/risk_config.py) ===== -/

/-- The module-level configuration constants read by the decision path. The
source reads them from the settings module; they are threaded explicitly here.
The source name DEFAULT_RR_RATIO is rendered DEFAULT_RR. -/
structure Settings where
  MIN_CONFIDENCE : ℚ
  MAX_DRAWDOWN_PERCENT : ℚ
  DAILY_LOSS_LIMIT : ℚ
  DEFAULT_RR : ℚ
deriving DecidableEq, Repr

/-- The default values in config/settings.py. -/
def defaultSettings : Settings :=
  { MIN_CONFIDENCE := 80/100
  , MAX_DRAWDOWN_PERCENT := 5
  , DAILY_LOSS_LIMIT := 2
  , DEFAULT_RR := 3 }

/-- RiskConfig.validate_trade_signal. -/
def validate_trade_signal (s : Settings)
    (signal_confidence current_drawdown daily_loss : ℚ) : Bool × String :=
  if signal_confidence < s.MIN_CONFIDENCE then (false, "Confidence too low")
  else if s.MAX_DRAWDOWN_PERCENT ≤ current_drawdown then (false, "Max drawdown reached")
  else if s.DAILY_LOSS_LIMIT ≤ daily_loss then (false, "Daily loss limit reached")
  else (true, "Valid signal")

/-- RiskConfig.calculate_stop_loss: percentage offset on the side opposite the
trade, 2% / 1% / 0.5% for high / medium / other volatility. -/
def calculate_stop_loss (entry_price : ℚ) (direction volatility : String) : ℚ :=
  if direction = "BUY" then
    if volatility = "high" then entry_price * (98/100)
    else if volatility = "medium" then entry_price * (99/100)
    else entry_price * (995/1000)
  else
    if volatility = "high" then entry_price * (102/100)
    else if volatility = "medium" then entry_price * (101/100)
    else entry_price * (1005/1000)

/-- RiskConfig.calculate_take_profit: entry ± risk distance × rr_ratio. -/
def calculate_take_profit (entry_price : ℚ) (direction : String) (rr_ratio : ℚ)
    (stop_loss : ℚ) : ℚ :=
  if direction = "BUY" then entry_price + (entry_price - stop_loss) * rr_ratio
  else entry_price - (stop_loss - entry_price) * rr_ratio

/- ===== DecisionMaker (src/core/decision_maker.py) ===== -/

/-- The signal dict built by DecisionMaker._evaluate_pair. The timestamp key
(datetime.utcnow(), wall-clock) is not modelled: nothing verified reads it. -/
structure Signal where
  pair : String
  direction : String
  entry : ℚ
  stop_loss : ℚ
  take_profit : ℚ
  confidence : ℚ
  timeframe : String
  reason : String
deriving DecidableEq, Repr

/-- DecisionMaker._determine_direction. The structure_data argument
(analysis['structure'].get(pair, {})) is accepted and ignored, as in the
source. -/
def determine_direction (s : Settings) (prob_data : ProbResult)
    (_structure_data : Option PairAnalysis) : String :=
  let buy_prob := prob_data.buy_probability
  let sell_prob := prob_data.sell_probability
  let min_confidence := s.MIN_CONFIDENCE
  if min_confidence ≤ buy_prob ∧ sell_prob < buy_prob then "BUY"
  else if min_confidence ≤ sell_prob ∧ buy_prob < sell_prob then "SELL"
  else "WAIT"

/-- DecisionMaker._evaluate_pair. Drawdown and daily loss are passed to
validate_trade_signal as the literal constants 0, 0, exactly as in the source
(commented there "drawdown dan daily loss sementara 0"). A missing structure
entry makes the Python code raise KeyError at analysis['structure'][pair],
caught by the surrounding except which returns None — modelled by the none
branch. entry is price_data.get('close', 0). -/
def evaluate_pair (s : Settings) (pair : String) (prob_data : ProbResult)
    (structOpt : Option PairAnalysis) : Option Signal :=
  let confidence := prob_data.confidence
  let valid := validate_trade_signal s confidence 0 0
  if valid.1 = false then none
  else
    let direction := determine_direction s prob_data structOpt
    if direction = "WAIT" then none
    else
      match structOpt with
      | none => none
      | some sd =>
        let entry := match sd.price_action with | none => 0 | some p => p.close
        let volatility := sd.volatility
        let stop_loss := calculate_stop_loss entry direction volatility
        let take_profit := calculate_take_profit entry direction s.DEFAULT_RR stop_loss
        some { pair := pair, direction := direction, entry := entry
             , stop_loss := stop_loss, take_profit := take_profit
             , confidence := confidence, timeframe := sd.primary_tf
             , reason := prob_data.reason }

/-- DecisionMaker.generate: evaluate every pair of analysis['probability'],
keeping the non-None decisions. -/
def decision_generate (s : Settings) (probability : List (String × ProbResult))
    (structure_analysis : List (String × PairAnalysis)) : List Signal :=
  probability.filterMap (fun p => evaluate_pair s p.1 p.2 (structure_analysis.lookup p.1))

/-- The analysis-and-decision cycle of BrainController.analyze_market /
generate_signals restricted to the verified engines: structure analysis and
pattern scan over the synchronized tf data, probability aggregation, then the
decision gate. -/
def pipeline_signals (s : Settings)
    (tfData : List (String × List (String × List Candle))) : List Signal :=
  let structure_analysis := structure_analyze tfData
  let patterns := pattern_scan tfData
  let probability := probability_calculate structure_analysis patterns
  decision_generate s probability structure_analysis

/- ===== DeepSeekOptimizer (src/deepseek/deepseek_optimizer.py) and
       DeepSeekConnector (src/deepseek/deepseek_connector.py) ===== -/

/-- The fields of a signal read by _apply_basic_optimization:
signal.get('confidence', 0.5) and signal.get('direction', ''). -/
structure BasicSignal where
  confidence : ℚ := 1/2
  direction : String := ""
deriving DecidableEq, Repr

/-- The fields of technical_analysis.get(pair, {}) read by
_apply_basic_optimization, each with its .get default:
primary_trend ('neutral'), volume_analysis.volume_trend ('neutral'),
momentum.momentum_score (0.5). -/
structure BasicTech where
  primary_trend : String := "neutral"
  volume_trend : String := "neutral"
  momentum_score : ℚ := 1/2
deriving DecidableEq, Repr

/-- The adjustments list built by DeepSeekOptimizer._apply_basic_optimization:
+0.10 trend alignment, −0.15 counter-trend, ±0.05 volume, ±0.05 momentum. -/
def basic_adjustments (signal : BasicSignal) (pair_analysis : BasicTech) : List ℚ :=
  let trend_direction := pair_analysis.primary_trend
  let signal_direction := signal.direction.toLower
  let a1 : List ℚ :=
    if trend_direction = "bullish" ∧ signal_direction = "buy" then [1/10]
    else if trend_direction = "bearish" ∧ signal_direction = "sell" then [1/10]
    else if trend_direction ≠ "neutral" ∧
        ((trend_direction = "bullish" ∧ signal_direction = "sell") ∨
         (trend_direction = "bearish" ∧ signal_direction = "buy")) then [-(15/100)]
    else []
  let a2 : List ℚ :=
    if pair_analysis.volume_trend = "increasing" then [5/100]
    else if pair_analysis.volume_trend = "decreasing" then [-(5/100)]
    else []
  let a3 : List ℚ :=
    if pair_analysis.momentum_score > 7/10 then [5/100]
    else if pair_analysis.momentum_score < 3/10 then [-(5/100)]
    else []
  a1 ++ a2 ++ a3

/-- The adjusted_confidence computed by _apply_basic_optimization:
base + total adjustment, clamped by max(0.1, min(0.95, ·)). -/
def apply_basic_optimization (signal : BasicSignal) (pair_analysis : BasicTech) : ℚ :=
  let total_adjustment := (basic_adjustments signal pair_analysis).sum
  let optimized_confidence := signal.confidence + total_adjustment
  max (1/10) (min (95/100) optimized_confidence)

/-- The adjusted_confidence written by DeepSeekConnector.
optimize_signal_confidence when a parsed optimization is applied:
min(signal['confidence'] + optimization.get('confidence_boost', 0), 0.95).
Note the absence of any lower clamp. -/
def optimize_signal_confidence_adjust (confidence confidence_boost : ℚ) : ℚ :=
  min (confidence + confidence_boost) (95/100)

/- ===== TrendEngine (src/analytical/trend_engine.py) ===== -/

/-- pd.Series(prices).rolling(window=w).mean().iloc[-1]: the mean of the last
w prices. For len < w pandas yields NaN (every comparison false); the callers
guard len ≥ 100, and every theorem below carries that bound. -/
def te_rolling_mean_last (w : ℕ) (prices : List ℚ) : ℚ := pymean (lastN w prices)

/-- TrendEngine._determine_primary_trend: bullish iff the 20-period MA exceeds
the 50-period MA which exceeds the 100-period MA of closes, bearish iff fully
reversed, else neutral. -/
def te_determine_primary_trend (closes : List ℚ) : String :=
  let short_ma := te_rolling_mean_last 20 closes
  let medium_ma := te_rolling_mean_last 50 closes
  let long_ma := te_rolling_mean_last 100 closes
  if medium_ma < short_ma ∧ long_ma < medium_ma then "bullish"
  else if short_ma < medium_ma ∧ medium_ma < long_ma then "bearish"
  else "neutral"

/- ===== Concrete inputs for witnesses and counterexamples ===== -/

/-- A candle with the given close (and inert other fields). -/
def mkCloseCandle (v : ℚ) : Candle :=
  { opn := v, high := v + 1, low := v - 1, close := v, volume := 1, timestamp := 0 }

/-- A candle with the given low and high (close at the high). -/
def mkRangeCandle (l h : ℚ) : Candle :=
  { opn := l, high := h, low := l, close := h, volume := 1, timestamp := 0 }

/-- 100 closes whose last-20 mean is 110, last-50 mean is 105 and last-100
mean is 100: the spec's short MA=110 > medium MA=105 > long MA=100 input. -/
def c4_closes : List ℚ :=
  List.replicate 50 95 ++ List.replicate 30 (305/3) ++ List.replicate 20 110

/-- The 100-candle series with closes c4_closes. -/
def c4_candles : List Candle := c4_closes.map mkCloseCandle

/-- Five 1-minute candles (used to refute resampling idempotence at '5m'). -/
def five_candles : List Candle :=
  [ { opn := 10, high := 12, low := 9, close := 11, volume := 100, timestamp := 1 }
  , { opn := 13, high := 15, low := 12, close := 14, volume := 120, timestamp := 2 }
  , { opn := 16, high := 18, low := 15, close := 17, volume := 90, timestamp := 3 }
  , { opn := 17, high := 19, low := 16, close := 18, volume := 80, timestamp := 4 }
  , { opn := 18, high := 20, low := 17, close := 19, volume := 70, timestamp := 5 } ]

/-- Ten candles with exactly one (bullish) fair value gap, between indices 1
and 2; the candle after the gap keeps its low above the pre-gap high. -/
def c9_data : List Candle :=
  [ mkRangeCandle 2 4, mkRangeCandle 2 4, mkRangeCandle 6 8, mkRangeCandle 5 8
  , mkRangeCandle 4 6, mkRangeCandle 4 6, mkRangeCandle 4 6, mkRangeCandle 4 6
  , mkRangeCandle 4 6, mkRangeCandle 4 6 ]

/-- A probability dict with confidence 0.85 and buy probability 0.9: passes
the confidence gate and selects BUY. -/
def c5_prob : ProbResult :=
  { confidence := 85/100, buy_probability := 9/10, sell_probability := 1/10
  , reason := "High probability setup" }

/-- A structure snapshot with close 100 and medium volatility. -/
def c5_struct : PairAnalysis :=
  { initial_pair_analysis with
    price_action := some { opn := 100, high := 101, low := 99, close := 100, body_ratio := 1/2 }
  , volatility := "medium" }

/-- Whether candle i opens a fair value gap over candle i−1 (either side) —
the test inside _detect_fvg's loop. -/
def fvg_gap_at (data : List Candle) (i : ℕ) : Prop :=
  (data.getD (i-1) cdef).high < (data.getD i cdef).low ∨
  (data.getD i cdef).high < (data.getD (i-1) cdef).low

instance (data : List Candle) (i : ℕ) : Decidable (fvg_gap_at data i) := by
  unfold fvg_gap_at; exact inferInstance

/-- Modelled from the spec: the stop-offset fraction per volatility bucket
(high → 2%, medium → 1%, low → 0.5%); the source's else-branch covers every
non-high, non-medium label with the 0.5% offset. -/
def spec_stop_fraction (volatility : String) : ℚ :=
  if volatility = "high" then 2/100
  else if volatility = "medium" then 1/100
  else 5/1000

/- ===================================================================== -/
/- ========================== Theorems ================================= -/
/- ===================================================================== -/

/- ----- generic list helpers ----- -/

theorem foldl_max_init_le (l : List ℚ) : ∀ (a : ℚ), a ≤ l.foldl max a := by
  induction l with
  | nil => intro a; exact le_refl a
  | cons x xs ih =>
    intro a
    exact le_trans (le_max_left a x) (ih (max a x))

theorem foldl_max_le_of_mem (l : List ℚ) : ∀ (a x : ℚ), x ∈ l → x ≤ l.foldl max a := by
  induction l with
  | nil => intro a x hx; cases hx
  | cons y ys ih =>
    intro a x hx
    rcases List.mem_cons.mp hx with h | h
    · subst h
      exact le_trans (le_max_right a x) (foldl_max_init_le ys (max a x))
    · exact ih (max a y) x h

theorem foldl_max_mem (l : List ℚ) : ∀ (a : ℚ), l.foldl max a ∈ a :: l := by
  induction l with
  | nil => intro a; exact List.mem_singleton.mpr rfl
  | cons x xs ih =>
    intro a
    have h := ih (max a x)
    rw [List.foldl_cons]
    rcases List.mem_cons.mp h with h1 | h1
    · rw [h1]
      rcases max_choice a x with hc | hc
      · rw [hc]; exact List.mem_cons_self _ _
      · rw [hc]; exact List.mem_cons_of_mem _ (List.mem_cons_self _ _)
    · exact List.mem_cons_of_mem _ (List.mem_cons_of_mem _ h1)

theorem foldl_min_le_init (l : List ℚ) : ∀ (a : ℚ), l.foldl min a ≤ a := by
  induction l with
  | nil => intro a; exact le_refl a
  | cons x xs ih =>
    intro a
    exact le_trans (ih (min a x)) (min_le_left a x)

theorem foldl_min_le_of_mem (l : List ℚ) : ∀ (a x : ℚ), x ∈ l → l.foldl min a ≤ x := by
  induction l with
  | nil => intro a x hx; cases hx
  | cons y ys ih =>
    intro a x hx
    rcases List.mem_cons.mp hx with h | h
    · subst h
      exact le_trans (foldl_min_le_init ys (min a x)) (min_le_right a x)
    · exact ih (min a y) x h

theorem foldl_min_mem (l : List ℚ) : ∀ (a : ℚ), l.foldl min a ∈ a :: l := by
  induction l with
  | nil => intro a; exact List.mem_singleton.mpr rfl
  | cons x xs ih =>
    intro a
    have h := ih (min a x)
    rw [List.foldl_cons]
    rcases List.mem_cons.mp h with h1 | h1
    · rw [h1]
      rcases min_choice a x with hc | hc
      · rw [hc]; exact List.mem_cons_self _ _
      · rw [hc]; exact List.mem_cons_of_mem _ (List.mem_cons_self _ _)
    · exact List.mem_cons_of_mem _ (List.mem_cons_of_mem _ h1)

theorem pymax_mem {l : List ℚ} (h : l ≠ []) : pymax l ∈ l := by
  cases l with
  | nil => exact absurd rfl h
  | cons x xs =>
    exact foldl_max_mem xs x

theorem le_pymax {l : List ℚ} {x : ℚ} (h : x ∈ l) : x ≤ pymax l := by
  cases l with
  | nil => cases h
  | cons y ys =>
    rcases List.mem_cons.mp h with h1 | h1
    · subst h1; exact foldl_max_init_le ys x
    · exact foldl_max_le_of_mem ys y x h1

theorem pymin_mem {l : List ℚ} (h : l ≠ []) : pymin l ∈ l := by
  cases l with
  | nil => exact absurd rfl h
  | cons x xs =>
    exact foldl_min_mem xs x

theorem pymin_le {l : List ℚ} {x : ℚ} (h : x ∈ l) : pymin l ≤ x := by
  cases l with
  | nil => cases h
  | cons y ys =>
    rcases List.mem_cons.mp h with h1 | h1
    · subst h1; exact foldl_min_le_init ys x
    · exact foldl_min_le_of_mem ys y x h1

theorem map_getLastD {β : Type} (f : Candle → β) :
    ∀ (l : List Candle) (c : Candle) (d : β),
      ((c :: l).map f).getLastD d = f ((c :: l).getLastD cdef) := by
  intro l
  induction l with
  | nil => intro c d; rfl
  | cons x xs ih =>
    intro c d
    have h1 : ((c :: x :: xs).map f) = f c :: (x :: xs).map f := rfl
    rw [h1, List.getLastD_cons, List.getLastD_cons, ih x (f c)]
    rcases h2 : (x :: xs).getLast? with _ | y
    · simp at h2
    · simp [List.getLastD, h2]

/- ----- C2 : calibrator clamp ----- -/

/-- C2 counterexample: the claim says every adjustment strategy keeps
adjusted_confidence within [0.10, 0.95]. On the external-advisor path
(DeepSeekConnector.optimize_signal_confidence) a signal with confidence 0.2
and an advisor boost of −0.2 yields adjusted_confidence 0, strictly below the
claimed 0.10 floor. -/
theorem C2_cex_connector_no_floor :
    optimize_signal_confidence_adjust (2/10) (-(2/10)) = 0 ∧ (0:ℚ) < 1/10 := by
  constructor
  · norm_num [optimize_signal_confidence_adjust]
  · norm_num

/-- C2 (amended): the local heuristic DeepSeekOptimizer._apply_basic_optimization
clamps adjusted_confidence into [0.10, 0.95] for every signal and technical
analysis; the external-advisor path only enforces the 0.95 upper bound
(adjusted = min(confidence + boost, 0.95)) and has no lower clamp. -/
theorem C2_calibrator_clamp :
    (∀ (signal : BasicSignal) (pair_analysis : BasicTech),
      1/10 ≤ apply_basic_optimization signal pair_analysis
      ∧ apply_basic_optimization signal pair_analysis ≤ 95/100)
    ∧ (∀ (confidence boost : ℚ),
      optimize_signal_confidence_adjust confidence boost ≤ 95/100) := by
  constructor
  · intro signal pair_analysis
    unfold apply_basic_optimization
    constructor
    · exact le_max_left _ _
    · exact max_le (by norm_num) (min_le_left _ _)
  · intro confidence boost
    exact min_le_right _ _

/- ----- C5 : drawdown / daily-loss gating ----- -/

/-- C5: the claim says a current drawdown ≥ 5% (or daily loss ≥ 2%) makes
the Decision Gate risk-reject the pair with no Signal emitted. The validator
RiskConfig.validate_trade_signal does implement the check (first conjunct:
at drawdown 6 it rejects with "Max drawdown reached"), but
DecisionMaker._evaluate_pair invokes it with the hard-coded literals 0, 0
("drawdown dan daily loss sementara 0"), so the account's actual drawdown
never reaches the check: with the pair-level inputs c5_prob / c5_struct a BUY
signal is emitted regardless of any drawdown state (second conjunct). -/
theorem C5_drawdown_gate_stubbed :
    validate_trade_signal defaultSettings (85/100) 6 0 = (false, "Max drawdown reached")
    ∧ evaluate_pair defaultSettings "BTCUSDT" c5_prob (some c5_struct) =
        some { pair := "BTCUSDT", direction := "BUY", entry := 100, stop_loss := 99
             , take_profit := 103, confidence := 85/100, timeframe := "15m"
             , reason := "High probability setup" } := by
  constructor
  · norm_num [validate_trade_signal, defaultSettings]
  · norm_num [evaluate_pair, validate_trade_signal, determine_direction,
      calculate_stop_loss, calculate_take_profit, defaultSettings, c5_prob,
      c5_struct, initial_pair_analysis]
    refine ⟨by decide, by decide, ?_⟩
    rw [if_neg (by decide)]
    norm_num

/- ----- C7 : stop/target placement ----- -/

theorem stop_target_buy (e rr sl : ℚ) (hsl : sl < e) (hrr : 0 < rr) :
    e < calculate_take_profit e "BUY" rr sl
    ∧ (calculate_take_profit e "BUY" rr sl - e) / (e - sl) = rr := by
  have hpos : 0 < e - sl := by linarith
  have hne : e - sl ≠ 0 := ne_of_gt hpos
  unfold calculate_take_profit
  rw [if_pos rfl]
  constructor
  · nlinarith
  · field_simp

theorem stop_target_sell (e rr sl : ℚ) (hsl : e < sl) (hrr : 0 < rr) :
    calculate_take_profit e "SELL" rr sl < e
    ∧ (e - calculate_take_profit e "SELL" rr sl) / (sl - e) = rr := by
  have hpos : 0 < sl - e := by linarith
  have hne : sl - e ≠ 0 := ne_of_gt hpos
  unfold calculate_take_profit
  rw [if_neg (by decide)]
  constructor
  · nlinarith
  · field_simp

/-- C7: for entry e > 0 and reward:risk ratio rr > 0 (default 3.0), a BUY has
stop < entry < target and a SELL has target < entry < stop; the stop offset is
2% / 1% / 0.5% of entry for high / medium / other volatility on the
direction-opposite side, and (target distance) / (stop distance) = rr
exactly (ℚ arithmetic, the float computation is exact tolerance-free here). -/
theorem C7_stop_target_placement (entry rr : ℚ) (volatility : String)
    (he : 0 < entry) (hrr : 0 < rr) :
    (calculate_stop_loss entry "BUY" volatility < entry
      ∧ entry < calculate_take_profit entry "BUY" rr (calculate_stop_loss entry "BUY" volatility)
      ∧ entry - calculate_stop_loss entry "BUY" volatility = spec_stop_fraction volatility * entry
      ∧ (calculate_take_profit entry "BUY" rr (calculate_stop_loss entry "BUY" volatility) - entry)
          / (entry - calculate_stop_loss entry "BUY" volatility) = rr)
    ∧ (entry < calculate_stop_loss entry "SELL" volatility
      ∧ calculate_take_profit entry "SELL" rr (calculate_stop_loss entry "SELL" volatility) < entry
      ∧ calculate_stop_loss entry "SELL" volatility - entry = spec_stop_fraction volatility * entry
      ∧ (entry - calculate_take_profit entry "SELL" rr (calculate_stop_loss entry "SELL" volatility))
          / (calculate_stop_loss entry "SELL" volatility - entry) = rr) := by
  have hbuy : calculate_stop_loss entry "BUY" volatility =
      entry * (1 - spec_stop_fraction volatility) := by
    unfold calculate_stop_loss spec_stop_fraction
    rw [if_pos rfl]
    split_ifs <;> ring
  have hsell : calculate_stop_loss entry "SELL" volatility =
      entry * (1 + spec_stop_fraction volatility) := by
    unfold calculate_stop_loss spec_stop_fraction
    rw [if_neg (by decide)]
    split_ifs <;> ring
  have hfrac : 0 < spec_stop_fraction volatility ∧ spec_stop_fraction volatility < 1 := by
    unfold spec_stop_fraction
    split_ifs <;> norm_num
  have hslb : calculate_stop_loss entry "BUY" volatility < entry := by
    rw [hbuy]; nlinarith [hfrac.1, hfrac.2]
  have hsls : entry < calculate_stop_loss entry "SELL" volatility := by
    rw [hsell]; nlinarith [hfrac.1]
  refine ⟨⟨hslb, ?_, ?_, ?_⟩, ⟨hsls, ?_, ?_, ?_⟩⟩
  · exact (stop_target_buy entry rr _ hslb hrr).1
  · rw [hbuy]; ring
  · exact (stop_target_buy entry rr _ hslb hrr).2
  · exact (stop_target_sell entry rr _ hsls hrr).1
  · rw [hsell]; ring
  · exact (stop_target_sell entry rr _ hsls hrr).2

/-- C7 witness: the placement facts evaluated at entry 100, medium
volatility and the default reward:risk ratio 3. -/
theorem C7_witness :
    calculate_stop_loss 100 "BUY" "medium" < 100
    ∧ (100:ℚ) < calculate_take_profit 100 "BUY" 3 (calculate_stop_loss 100 "BUY" "medium")
    ∧ (calculate_take_profit 100 "BUY" 3 (calculate_stop_loss 100 "BUY" "medium") - 100)
        / (100 - calculate_stop_loss 100 "BUY" "medium") = 3 := by
  have h := C7_stop_target_placement 100 3 "medium" (by norm_num) (by norm_num)
  exact ⟨h.1.1, h.1.2.1, h.1.2.2.2⟩

/- ----- C8 : probability bounds ----- -/

theorem structure_probability_bounds (sd : PairAnalysis) :
    0 ≤ structure_probability sd ∧ structure_probability sd ≤ 1 := by
  unfold structure_probability
  split_ifs <;> norm_num

theorem pattern_weight_nonneg (p : PatternEvent) : 0 ≤ pattern_weight p := by
  unfold pattern_weight
  split_ifs <;> norm_num

theorem foldl_pattern_weight_nonneg (l : List PatternEvent) :
    ∀ (a : ℚ), 0 ≤ a → 0 ≤ l.foldl (fun acc p => acc + pattern_weight p) a := by
  induction l with
  | nil => intro a ha; exact ha
  | cons p ps ih =>
    intro a ha
    exact ih (a + pattern_weight p) (by have := pattern_weight_nonneg p; linarith)

theorem pattern_probability_bounds (pats : Option PatternData) :
    0 ≤ pattern_probability pats ∧ pattern_probability pats ≤ 1 := by
  cases pats with
  | none => constructor <;> norm_num [pattern_probability]
  | some pd =>
    unfold pattern_probability
    constructor
    · apply le_min
      · apply div_nonneg
        · exact foldl_pattern_weight_nonneg pd.patterns 0 (le_refl 0)
        · positivity
      · norm_num
    · exact min_le_right _ _

theorem volume_probability_bounds (sd : PairAnalysis) :
    0 ≤ volume_probability sd ∧ volume_probability sd ≤ 1 := by
  unfold volume_probability
  cases sd.volume_analysis with
  | none => norm_num
  | some v =>
    dsimp only
    split_ifs <;> norm_num

theorem momentum_probability_bounds (sd : PairAnalysis) :
    0 ≤ momentum_probability sd ∧ momentum_probability sd ≤ 1 := by
  unfold momentum_probability
  cases sd.momentum with
  | none => norm_num
  | some m =>
    dsimp only
    split_ifs <;> norm_num

theorem directional_probability_bounds (sd : PairAnalysis) (pats : Option PatternData) :
    (0 ≤ (directional_probability sd pats).1 ∧ (directional_probability sd pats).1 ≤ 1)
    ∧ (0 ≤ (directional_probability sd pats).2 ∧ (directional_probability sd pats).2 ≤ 1) := by
  unfold directional_probability
  split_ifs <;> norm_num

/-- C8: for every structure snapshot and pattern input, each of the four
sub-scores (structure, pattern, volume, momentum) lies in [0,1], and the
per-pair result of ProbabilityEngine.calculate — the 0.35/0.30/0.20/0.15
weighted confidence plus the directional buy/sell probabilities — also lies
in [0,1]. -/
theorem C8_probability_bounds :
    ∀ (sd : PairAnalysis) (pats : Option PatternData),
      (0 ≤ structure_probability sd ∧ structure_probability sd ≤ 1)
      ∧ (0 ≤ pattern_probability pats ∧ pattern_probability pats ≤ 1)
      ∧ (0 ≤ volume_probability sd ∧ volume_probability sd ≤ 1)
      ∧ (0 ≤ momentum_probability sd ∧ momentum_probability sd ≤ 1)
      ∧ (0 ≤ (pair_probability sd pats).confidence
          ∧ (pair_probability sd pats).confidence ≤ 1)
      ∧ (0 ≤ (pair_probability sd pats).buy_probability
          ∧ (pair_probability sd pats).buy_probability ≤ 1)
      ∧ (0 ≤ (pair_probability sd pats).sell_probability
          ∧ (pair_probability sd pats).sell_probability ≤ 1) := by
  intro sd pats
  have hs := structure_probability_bounds sd
  have hp := pattern_probability_bounds pats
  have hv := volume_probability_bounds sd
  have hm := momentum_probability_bounds sd
  have hd := directional_probability_bounds sd pats
  have hconf : (pair_probability sd pats).confidence =
      structure_probability sd * (35/100) + pattern_probability pats * (30/100) +
      volume_probability sd * (20/100) + momentum_probability sd * (15/100) := rfl
  have hbuy : (pair_probability sd pats).buy_probability =
      (directional_probability sd pats).1 := rfl
  have hsell : (pair_probability sd pats).sell_probability =
      (directional_probability sd pats).2 := rfl
  refine ⟨hs, hp, hv, hm, ?_, ?_, ?_⟩
  · rw [hconf]
    constructor
    · nlinarith [hs.1, hp.1, hv.1, hm.1]
    · nlinarith [hs.2, hp.2, hv.2, hm.2, hs.1, hp.1, hv.1, hm.1]
  · rw [hbuy]; exact hd.1
  · rw [hsell]; exact hd.2

/- ----- resampler structure lemmas (C6, C3) ----- -/

theorem buckets_eq_nil {n : ℕ} {data : List Candle} (h : data.length < n) :
    buckets n data = [] := by
  rw [buckets]
  rw [dif_neg]
  intro hc
  omega

theorem buckets_cons {n : ℕ} {data : List Candle} (hn : 0 < n) (h : n ≤ data.length) :
    buckets n data = data.take n :: buckets n (data.drop n) := by
  rw [buckets]
  rw [dif_pos ⟨hn, h⟩]

theorem resample_loop_eq_buckets (n : ℕ) (tf : String) (hn : 0 < n) :
    ∀ (data group : List Candle), group.length < n →
      resample_loop n tf group data =
        (buckets n (group ++ data)).map (fun g => create_resampled_candle g tf) := by
  intro data
  induction data with
  | nil =>
    intro group hg
    rw [List.append_nil, buckets_eq_nil hg]
    rfl
  | cons c rest ih =>
    intro group hg
    rw [resample_loop]
    have hlen : (group ++ [c]).length = group.length + 1 := by simp
    by_cases hfull : n ≤ (group ++ [c]).length
    · rw [if_pos hfull]
      have hgn : group.length + 1 = n := by omega
      have hsplit : group ++ c :: rest = (group ++ [c]) ++ rest := by simp
      have htake : ((group ++ [c]) ++ rest).take n = group ++ [c] := by
        rw [show n = (group ++ [c]).length by omega]
        exact List.take_left _ _
      have hdrop : ((group ++ [c]) ++ rest).drop n = rest := by
        rw [show n = (group ++ [c]).length by omega]
        exact List.drop_left _ _
      have hblen : n ≤ (group ++ c :: rest).length := by
        simp only [List.length_append, List.length_cons]
        omega
      rw [hsplit, buckets_cons hn (by rw [← hsplit]; exact hblen), htake, hdrop]
      rw [List.map_cons]
      rw [ih [] (by simpa using hn)]
      rfl
    · rw [if_neg hfull]
      rw [ih (group ++ [c]) (by omega)]
      congr 1
      rw [List.append_assoc]
      rfl

theorem resampleWith_eq_buckets (n : ℕ) (tf : String) (hn : 0 < n)
    (data : List Candle) :
    resampleWith n tf data =
      (buckets n data).map (fun g => create_resampled_candle g tf) := by
  unfold resampleWith
  by_cases hd : data = []
  · subst hd
    rw [if_pos rfl, buckets_eq_nil (by simpa using hn)]
    rfl
  · rw [if_neg hd]
    have h := resample_loop_eq_buckets n tf hn data [] (by simpa using hn)
    simpa using h

theorem buckets_props (n : ℕ) (hn : 0 < n) :
    ∀ (k : ℕ) (data : List Candle), data.length ≤ k →
      (∀ b ∈ buckets n data, b.length = n)
      ∧ (buckets n data).flatten = data.take (data.length / n * n) := by
  intro k
  induction k with
  | zero =>
    intro data h
    have hdata : data = [] := List.length_eq_zero.mp (by omega)
    subst hdata
    rw [buckets_eq_nil (by simpa using hn)]
    simp
  | succ k ih =>
    intro data h
    by_cases hge : n ≤ data.length
    · have hrec := ih (data.drop n) (by simp only [List.length_drop]; omega)
      rw [buckets_cons hn hge]
      constructor
      · intro b hb
        rcases List.mem_cons.mp hb with h1 | h1
        · subst h1; simp [List.length_take]; omega
        · exact hrec.1 b h1
      · rw [List.flatten_cons, hrec.2, List.length_drop]
        have hdiv : data.length / n = (data.length - n) / n + 1 :=
          Nat.div_eq_sub_div hn hge
        have harith : data.length / n * n = n + (data.length - n) / n * n := by
          rw [hdiv]; ring
        rw [harith, List.take_add]
    · rw [buckets_eq_nil (by omega)]
      have hzero : data.length / n = 0 := Nat.div_eq_of_lt (by omega)
      rw [hzero]
      simp

/-- C6: for every bucket size n ≥ 1 the resampler emits exactly the sequence
of per-bucket aggregates over consecutive buckets of exactly n candles with
the trailing incomplete bucket dropped (empty input giving empty output, not
an error), the resampler at a timeframe label being this with
n = _timeframe_to_minutes; each aggregate of a non-empty bucket has
open = first open, close = last close, timestamp = last timestamp,
volume = sum of constituent volumes, and high/low equal to an attained
max/min of the constituents. -/
theorem C6_resampler_spec (n : ℕ) (tf : String) (data : List Candle) (hn : 1 ≤ n) :
    resampleWith n tf [] = []
    ∧ resampleWith n tf data =
        (buckets n data).map (fun g => create_resampled_candle g tf)
    ∧ (∀ b ∈ buckets n data, b.length = n)
    ∧ (buckets n data).flatten = data.take (data.length / n * n)
    ∧ (∀ (tf1 : String) (data1 : List Candle),
        resample_data data1 tf1 = resampleWith (timeframe_to_minutes tf1) tf1 data1)
    ∧ (∀ (c : Candle) (g : List Candle),
        (create_resampled_candle (c :: g) tf).opn = c.opn
        ∧ (create_resampled_candle (c :: g) tf).close = ((c :: g).getLastD cdef).close
        ∧ (create_resampled_candle (c :: g) tf).timestamp = ((c :: g).getLastD cdef).timestamp
        ∧ (create_resampled_candle (c :: g) tf).volume = ((c :: g).map (·.volume)).sum
        ∧ (create_resampled_candle (c :: g) tf).high ∈ (c :: g).map (·.high)
        ∧ (∀ x ∈ c :: g, x.high ≤ (create_resampled_candle (c :: g) tf).high)
        ∧ (create_resampled_candle (c :: g) tf).low ∈ (c :: g).map (·.low)
        ∧ (∀ x ∈ c :: g, (create_resampled_candle (c :: g) tf).low ≤ x.low)) := by
  have hn0 : 0 < n := hn
  have hb := buckets_props n hn0 data.length data (le_refl _)
  refine ⟨?_, resampleWith_eq_buckets n tf hn0 data, hb.1, hb.2, fun tf1 data1 => rfl, ?_⟩
  · unfold resampleWith
    rw [if_pos rfl]
  · intro c g
    have hopn : (create_resampled_candle (c :: g) tf).opn = c.opn := rfl
    have hclose : (create_resampled_candle (c :: g) tf).close =
        ((c :: g).getLastD cdef).close := by
      show ((c :: g).map (·.close)).getLastD 0 = ((c :: g).getLastD cdef).close
      exact map_getLastD (·.close) g c 0
    have hts : (create_resampled_candle (c :: g) tf).timestamp =
        ((c :: g).getLastD cdef).timestamp := by
      show ((c :: g).map (·.timestamp)).getLastD 0 = ((c :: g).getLastD cdef).timestamp
      exact map_getLastD (·.timestamp) g c 0
    have hvol : (create_resampled_candle (c :: g) tf).volume =
        ((c :: g).map (·.volume)).sum := rfl
    have hhighmem : (create_resampled_candle (c :: g) tf).high ∈ (c :: g).map (·.high) := by
      apply pymax_mem
      simp
    have hhighle : ∀ x ∈ c :: g, x.high ≤ (create_resampled_candle (c :: g) tf).high := by
      intro x hx
      apply le_pymax
      exact List.mem_map_of_mem (·.high) hx
    have hlowmem : (create_resampled_candle (c :: g) tf).low ∈ (c :: g).map (·.low) := by
      apply pymin_mem
      simp
    have hlowle : ∀ x ∈ c :: g, (create_resampled_candle (c :: g) tf).low ≤ x.low := by
      intro x hx
      apply pymin_le
      exact List.mem_map_of_mem (·.low) hx
    exact ⟨hopn, hclose, hts, hvol, hhighmem, hhighle, hlowmem, hlowle⟩

/-- C6 witness: the resampler facts instantiated at bucket size 3 over the
concrete five-candle series (hypothesis 1 ≤ 3 discharged numerically). -/
theorem C6_witness :
    resampleWith 3 "x" five_candles =
      (buckets 3 five_candles).map (fun g => create_resampled_candle g "x")
    ∧ resampleWith 3 "x" [] = [] :=
  ⟨(C6_resampler_spec 3 "x" five_candles (by norm_num)).2.1,
   (C6_resampler_spec 3 "x" five_candles (by norm_num)).1⟩

/- ----- C3 : resampling idempotence ----- -/

theorem buckets_one : ∀ (data : List Candle), buckets 1 data = data.map (fun c => [c]) := by
  intro data
  induction data with
  | nil => rw [buckets_eq_nil (by simp)]; rfl
  | cons c rest ih =>
    rw [buckets_cons (by norm_num) (by simp)]
    simp only [List.take_succ_cons, List.take_zero, List.drop_succ_cons, List.drop_zero]
    rw [ih]
    rfl

theorem create_single (x : Candle) (tf : String) :
    create_resampled_candle [x] tf = { x with timeframe := tf } := by
  unfold create_resampled_candle pymax pymin
  simp

theorem resampleWith_one (tf : String) (data : List Candle) :
    resampleWith 1 tf data = data.map (fun c => create_resampled_candle [c] tf) := by
  rw [resampleWith_eq_buckets 1 tf (by norm_num) data, buckets_one, List.map_map]
  rfl

/-- C3 counterexample: the claim asserts resample(resample(s, t), t) =
resample(s, t) for every series s and target t. For the five-candle series
and target '5m' the first resample yields a one-candle series, and
re-resampling that series at '5m' yields the empty series (the single candle
is an incomplete 5-bucket), which differs. -/
theorem C3_cex_not_idempotent :
    resample_data (resample_data five_candles "5m") "5m" = []
    ∧ resample_data five_candles "5m" ≠ [] := by
  have h1 : resample_data five_candles "5m" = [create_resampled_candle five_candles "5m"] := by
    show resampleWith 5 "5m" five_candles = _
    rw [resampleWith_eq_buckets 5 "5m" (by norm_num) five_candles]
    rw [buckets_cons (by norm_num) (by rw [show five_candles.length = 5 from rfl])]
    rw [buckets_eq_nil (by rw [show (five_candles.drop 5).length = 0 from rfl]; norm_num)]
    rfl
  rw [h1]
  constructor
  · show resampleWith 5 "5m" _ = []
    rw [resampleWith_eq_buckets 5 "5m" (by norm_num)]
    rw [buckets_eq_nil (by simp)]
    rfl
  · simp

/-- C3 (amended): resampling is idempotent exactly when the target timeframe's
bucket size is one base candle (timeframe_to_minutes t = 1, e.g. '1m' or an
unrecognized label): then re-resampling an already-resampled series yields an
identical series. For bucket sizes n ≥ 2 a non-empty resampled series is
re-grouped n candles at a time, so idempotence fails (see the counterexample). -/
theorem C3_resample_idempotent_bucket_one (tf : String) (data : List Candle)
    (h : timeframe_to_minutes tf = 1) :
    resample_data (resample_data data tf) tf = resample_data data tf := by
  unfold resample_data
  rw [h]
  rw [resampleWith_one, resampleWith_one, List.map_map]
  have hpt : ∀ (c : Candle),
      ((fun c => create_resampled_candle [c] tf) ∘ (fun c => create_resampled_candle [c] tf)) c
        = (fun c => create_resampled_candle [c] tf) c := by
    intro c
    show create_resampled_candle [create_resampled_candle [c] tf] tf
        = create_resampled_candle [c] tf
    rw [create_single, create_single]
  rw [funext hpt]

/-- C3 witness: idempotence at the 1-minute target over the concrete
five-candle series, the bucket-size-one hypothesis discharged by rfl. -/
theorem C3_witness :
    resample_data (resample_data five_candles "1m") "1m" =
      resample_data five_candles "1m" :=
  C3_resample_idempotent_bucket_one "1m" five_candles rfl

/- ----- C1 : the pipeline never emits a signal ----- -/

theorem applyTFAnalysis_trend (a : PairAnalysis) (t : TFAnalysis) :
    (applyTFAnalysis a t).trend_direction = a.trend_direction := rfl

theorem fold_analyze_trend (l : List (String × List Candle)) :
    ∀ (a : PairAnalysis),
      (l.foldl
        (fun acc td =>
          if td.2.length < required_data_points then acc
          else applyTFAnalysis acc (analyze_timeframe td.2))
        a).trend_direction = a.trend_direction := by
  induction l with
  | nil => intro a; rfl
  | cons x xs ih =>
    intro a
    rw [List.foldl_cons, ih]
    by_cases hx : x.2.length < required_data_points
    · rw [if_pos hx]
    · rw [if_neg hx, applyTFAnalysis_trend]

theorem analyze_pair_trend_neutral (tfs : List (String × List Candle)) :
    (analyze_pair tfs).trend_direction = "neutral" := by
  unfold analyze_pair determine_primary_trend
  dsimp only
  rw [fold_analyze_trend]
  rfl

theorem directional_probability_neutral (tfs : List (String × List Candle))
    (pats : Option PatternData) :
    directional_probability (analyze_pair tfs) pats = (1/2, 1/2) := by
  unfold directional_probability
  rw [analyze_pair_trend_neutral]
  rw [if_neg (by decide), if_neg (by decide)]

theorem determine_direction_half (pd : ProbResult) (so : Option PairAnalysis)
    (hb : pd.buy_probability = 1/2) (hs : pd.sell_probability = 1/2) :
    determine_direction defaultSettings pd so = "WAIT" := by
  unfold determine_direction defaultSettings
  dsimp only
  rw [hb, hs]
  rw [if_neg (by norm_num), if_neg (by norm_num)]

theorem evaluate_pair_half_none (pair : String) (pd : ProbResult)
    (so : Option PairAnalysis)
    (hb : pd.buy_probability = 1/2) (hs : pd.sell_probability = 1/2) :
    evaluate_pair defaultSettings pair pd so = none := by
  unfold evaluate_pair
  by_cases hv : (validate_trade_signal defaultSettings pd.confidence 0 0).1 = false
  · rw [if_pos hv]
  · rw [if_neg hv]
    rw [determine_direction_half pd so hb hs]
    rw [if_pos rfl]

/-- C1: the per-timeframe dict of _analyze_timeframe carries no
'trend_direction' key, so _analyze_pair's snapshot keeps its initial
'neutral' trend for every input (first conjunct); consequently
_directional_probability always returns (0.5, 0.5) (second conjunct);
therefore, under the default minimum-confidence 0.80, _determine_direction
answers WAIT for any such probabilities (third conjunct); and the composed
analysis-and-decision cycle emits no Signal for any market-data input
(fourth conjunct). -/
theorem C1_pipeline_never_signals :
    ∀ (tfs : List (String × List Candle)) (pats : Option PatternData)
      (conf : ℚ) (reason : String) (so : Option PairAnalysis)
      (tfData : List (String × List (String × List Candle))),
      (analyze_pair tfs).trend_direction = "neutral"
      ∧ directional_probability (analyze_pair tfs) pats = (1/2, 1/2)
      ∧ determine_direction defaultSettings
          { confidence := conf, buy_probability := 1/2, sell_probability := 1/2
          , reason := reason } so = "WAIT"
      ∧ pipeline_signals defaultSettings tfData = [] := by
  intro tfs pats conf reason so tfData
  refine ⟨analyze_pair_trend_neutral tfs, directional_probability_neutral tfs pats,
    determine_direction_half _ so rfl rfl, ?_⟩
  unfold pipeline_signals decision_generate
  apply List.filterMap_eq_nil_iff.mpr
  intro x hx
  unfold probability_calculate at hx
  rcases List.mem_map.mp hx with ⟨ps, hps, hxeq⟩
  rcases List.mem_map.mp hps with ⟨pt, _hpt, hpseq⟩
  subst hxeq
  subst hpseq
  apply evaluate_pair_half_none
  · show (pair_probability (analyze_pair pt.2) _).buy_probability = 1/2
    unfold pair_probability
    dsimp only
    rw [directional_probability_neutral]
  · show (pair_probability (analyze_pair pt.2) _).sell_probability = 1/2
    unfold pair_probability
    dsimp only
    rw [directional_probability_neutral]

/- ----- C4 : moving-average trend rule ----- -/

theorem c4_candles_closes : c4_candles.map (·.close) = c4_closes := by
  rw [c4_candles, List.map_map]
  have h : ((fun c : Candle => c.close) ∘ mkCloseCandle) = fun v : ℚ => v := by
    funext v
    rfl
  rw [h]
  exact List.map_id' c4_closes

theorem c4_closes_length : c4_closes.length = 100 := by
  simp [c4_closes]

theorem c4_ma20 : te_rolling_mean_last 20 c4_closes = 110 := by
  unfold te_rolling_mean_last pymean lastN
  rw [c4_closes_length]
  have hdrop : c4_closes.drop (100 - 20) = List.replicate 20 (110:ℚ) := by
    rw [c4_closes]
    rw [show (100 - 20 : ℕ) =
        (List.replicate 50 (95:ℚ) ++ List.replicate 30 (305/3)).length by simp]
    exact List.drop_left _ _
  rw [hdrop, List.sum_replicate]
  norm_num

theorem c4_ma50 : te_rolling_mean_last 50 c4_closes = 105 := by
  unfold te_rolling_mean_last pymean lastN
  rw [c4_closes_length]
  have hdrop : c4_closes.drop (100 - 50) =
      List.replicate 30 ((305:ℚ)/3) ++ List.replicate 20 110 := by
    rw [c4_closes, List.append_assoc]
    rw [show (100 - 50 : ℕ) = (List.replicate 50 (95:ℚ)).length by simp]
    exact List.drop_left _ _
  rw [hdrop, List.sum_append, List.sum_replicate, List.sum_replicate]
  simp only [List.length_append, List.length_replicate]
  norm_num

theorem c4_ma100 : te_rolling_mean_last 100 c4_closes = 100 := by
  unfold te_rolling_mean_last pymean lastN
  rw [c4_closes_length]
  rw [show (100 - 100 : ℕ) = 0 from rfl, List.drop_zero]
  rw [c4_closes, List.sum_append, List.sum_append,
    List.sum_replicate, List.sum_replicate, List.sum_replicate]
  simp only [List.length_append, List.length_replicate]
  norm_num

/-- C4 counterexample: a 100-candle input whose closes have short(20) MA 110 >
medium(50) MA 105 > long(100) MA 100, analyzed by the Structure Analyzer that
feeds the pipeline (MarketStructureEngine._analyze_pair, whose trend comes
from _get_trend_direction / _determine_primary_trend): the resulting primary
trend is "neutral", not "bullish" as the claim asserts. -/
theorem C4_cex_ma_input_not_bullish :
    te_rolling_mean_last 20 (c4_candles.map (·.close)) = 110
    ∧ te_rolling_mean_last 50 (c4_candles.map (·.close)) = 105
    ∧ te_rolling_mean_last 100 (c4_candles.map (·.close)) = 100
    ∧ (analyze_pair [("15m", c4_candles)]).trend_direction = "neutral"
    ∧ ("neutral" : String) ≠ "bullish" := by
  rw [c4_candles_closes]
  exact ⟨c4_ma20, c4_ma50, c4_ma100, analyze_pair_trend_neutral _, by decide⟩

/-- C4 (amended): the short/medium/long moving-average trend rule is
implemented by TrendEngine._determine_primary_trend (window 20/50/100 rolling
means of closes, guarded by 100 candles of history): it returns "bullish"
whenever short MA > medium MA > long MA. MarketStructureEngine — the
structure analyzer whose output feeds the pipeline — does not compare moving
averages, and its pair-level trend_direction is always "neutral". -/
theorem C4_trend_rule (closes : List ℚ) (tfs : List (String × List Candle))
    (_hlen : 100 ≤ closes.length) :
    (te_rolling_mean_last 50 closes < te_rolling_mean_last 20 closes →
      te_rolling_mean_last 100 closes < te_rolling_mean_last 50 closes →
      te_determine_primary_trend closes = "bullish")
    ∧ (analyze_pair tfs).trend_direction = "neutral" := by
  constructor
  · intro h1 h2
    unfold te_determine_primary_trend
    rw [if_pos ⟨h1, h2⟩]
  · exact analyze_pair_trend_neutral tfs

/-- C4 witness: the amended rule applied to the concrete 110/105/100 input:
TrendEngine answers "bullish" there while the pipeline's structure analyzer
stays "neutral". -/
theorem C4_witness :
    te_determine_primary_trend c4_closes = "bullish"
    ∧ (analyze_pair [("15m", c4_candles)]).trend_direction = "neutral" := by
  have h := C4_trend_rule c4_closes [("15m", c4_candles)]
    (by rw [c4_closes_length])
  exact ⟨h.1 (by rw [c4_ma50, c4_ma20]; norm_num) (by rw [c4_ma100, c4_ma50]; norm_num), h.2⟩

/- ----- C10 : decision gate antitone in minimum-confidence ----- -/

theorem validate_fst_false_iff (s : Settings) (c dd dl : ℚ) :
    (validate_trade_signal s c dd dl).1 = false ↔
      (c < s.MIN_CONFIDENCE ∨ s.MAX_DRAWDOWN_PERCENT ≤ dd ∨ s.DAILY_LOSS_LIMIT ≤ dl) := by
  unfold validate_trade_signal
  split_ifs with h1 h2 h3
  · exact iff_of_true rfl (Or.inl h1)
  · exact iff_of_true rfl (Or.inr (Or.inl h2))
  · exact iff_of_true rfl (Or.inr (Or.inr h3))
  · constructor
    · intro habs; exact absurd habs (by decide)
    · intro hc
      rcases hc with h | h | h
      · exact absurd h h1
      · exact absurd h h2
      · exact absurd h h3

theorem determine_direction_wait_iff (s : Settings) (pd : ProbResult)
    (so : Option PairAnalysis) :
    determine_direction s pd so = "WAIT" ↔
      (¬(s.MIN_CONFIDENCE ≤ pd.buy_probability ∧ pd.sell_probability < pd.buy_probability)
       ∧ ¬(s.MIN_CONFIDENCE ≤ pd.sell_probability ∧ pd.buy_probability < pd.sell_probability)) := by
  unfold determine_direction
  dsimp only
  split_ifs with h1 h2
  · constructor
    · intro habs; exact absurd habs (by decide)
    · intro hc; exact absurd h1 hc.1
  · constructor
    · intro habs; exact absurd habs (by decide)
    · intro hc; exact absurd h2 hc.2
  · simp [h1, h2]

theorem evaluate_pair_eq_none_iff (s : Settings) (pair : String) (pd : ProbResult)
    (so : Option PairAnalysis) :
    evaluate_pair s pair pd so = none ↔
      ((validate_trade_signal s pd.confidence 0 0).1 = false
       ∨ determine_direction s pd so = "WAIT"
       ∨ so = none) := by
  unfold evaluate_pair
  dsimp only
  split_ifs with h1 h2
  · simp [h1]
  · simp [h2]
  · cases so with
    | none => simp
    | some sd => simp [h1, h2]

/-- C10: for fixed technical inputs (probability data and structure snapshot),
the Decision Gate is antitone in the minimum-confidence threshold: if no
signal is emitted at threshold m, none is emitted at any threshold m1 ≥ m. -/
theorem C10_gate_antitone (s : Settings) (m m1 : ℚ) (pair : String)
    (pd : ProbResult) (so : Option PairAnalysis) (hm : m ≤ m1)
    (h0 : evaluate_pair { s with MIN_CONFIDENCE := m } pair pd so = none) :
    evaluate_pair { s with MIN_CONFIDENCE := m1 } pair pd so = none := by
  rw [evaluate_pair_eq_none_iff] at h0 ⊢
  rcases h0 with h | h | h
  · left
    rw [validate_fst_false_iff] at h ⊢
    rcases h with h | h | h
    · left; exact lt_of_lt_of_le h hm
    · right; left; exact h
    · right; right; exact h
  · right; left
    rw [determine_direction_wait_iff] at h ⊢
    constructor
    · intro hc
      exact h.1 ⟨le_trans hm hc.1, hc.2⟩
    · intro hc
      exact h.2 ⟨le_trans hm hc.1, hc.2⟩
  · right; right; exact h

/-- C10 witness: with buy probability 0.9 but no structure entry the gate
emits nothing at threshold 0.80, and therefore (by antitonicity) emits
nothing at the raised threshold 0.90 either. -/
theorem C10_witness :
    evaluate_pair { defaultSettings with MIN_CONFIDENCE := 9/10 } "P" c5_prob none = none :=
  C10_gate_antitone defaultSettings (80/100) (9/10) "P" c5_prob none (by norm_num)
    (by rw [evaluate_pair_eq_none_iff]; right; right; rfl)

/- ----- C9 : single bullish fair value gap ----- -/

theorem filterMap_unique {β : Type} (f : ℕ → Option β) :
    ∀ (l : List ℕ), l.Nodup → ∀ i ∈ l, ∀ e, f i = some e →
      (∀ j ∈ l, j ≠ i → f j = none) → l.filterMap f = [e] := by
  intro l
  induction l with
  | nil => intro _ i hi; cases hi
  | cons a t ih =>
    intro hnd i hi e hfi hothers
    have hnd2 := List.nodup_cons.mp hnd
    by_cases hai : a = i
    · subst hai
      rw [List.filterMap_cons_some hfi]
      have ht : t.filterMap f = [] := by
        apply List.filterMap_eq_nil_iff.mpr
        intro j hj
        have hja : j ≠ a := fun h => hnd2.1 (h ▸ hj)
        exact hothers j (List.mem_cons_of_mem a hj) hja
      rw [ht]
    · have hfa : f a = none := hothers a (List.mem_cons_self a t) hai
      rw [List.filterMap_cons_none hfa]
      have hit : i ∈ t := by
        rcases List.mem_cons.mp hi with h | h
        · exact absurd h.symm hai
        · exact h
      exact ih hnd2.2 i hit e hfi
        (fun j hj hne => hothers j (List.mem_cons_of_mem a hj) hne)

theorem detect_order_blocks_some (data : List Candle) (tf : String)
    (hflat : ∀ j ∈ List.range' 2 (data.length - 4),
        (data.getD j cdef).high ≠ (data.getD j cdef).low) :
    ∃ obs, detect_order_blocks data tf = some obs ∧ ∀ p ∈ obs, p.ptype = "OB" := by
  unfold detect_order_blocks
  rw [if_pos hflat]
  refine ⟨_, rfl, ?_⟩
  intro p hp
  rcases List.mem_filterMap.mp hp with ⟨j, _, hj⟩
  dsimp only at hj
  split_ifs at hj with h
  · have h2 := Option.some.inj hj
    rw [← h2]

theorem detect_fvg_ptype (data : List Candle) (tf : String) :
    ∀ p ∈ detect_fvg data tf, p.ptype = "FVG" := by
  intro p hp
  unfold detect_fvg at hp
  rcases List.mem_filterMap.mp hp with ⟨i, _, hi⟩
  dsimp only at hi
  split_ifs at hi with h hdir
  · have h2 := Option.some.inj hi
    rw [← h2]
  · have h2 := Option.some.inj hi
    rw [← h2]

theorem detect_sfp_ptype (data : List Candle) (tf : String) :
    ∀ p ∈ detect_sfp data tf, p.ptype = "SFP" := by
  intro p hp
  unfold detect_sfp at hp
  rcases List.mem_filterMap.mp hp with ⟨i, _, hi⟩
  dsimp only at hi
  split_ifs at hi with h
  · have h2 := Option.some.inj hi
    rw [← h2]

theorem detect_mss_ptype (data : List Candle) (tf : String) :
    ∀ p ∈ detect_mss data tf, p.ptype = "MSS" := by
  intro p hp
  unfold detect_mss at hp
  rcases List.mem_filterMap.mp hp with ⟨i, _, hi⟩
  dsimp only at hi
  split_ifs at hi with h
  · have h2 := Option.some.inj hi
    rw [← h2]

/-- C9: for a candle series whose only gap occurrence (within the scanned
index range 1..len−2) is a bullish fair value gap at index i — candle i's low
above candle i−1's high, with the following candle's low also staying above
that high — and no zero-range candle in the order-block scan range
(range 2..len−3, where the source would raise ZeroDivisionError and abort the
pair's scan), the scanner reports exactly one fair-value-gap event; it is
bullish and carries active = true (the source's unfilled flag: gap dicts are
emitted with 'active': True). At pair level, _scan_pair completes normally
and its FVG-typed events are exactly that one event. -/
theorem C9_single_bullish_fvg (data : List Candle) (tf : String) (i : ℕ)
    (hmem : i ∈ List.range' 1 (data.length - 2))
    (hb : (data.getD (i-1) cdef).high < (data.getD i cdef).low)
    (_hnext : (data.getD (i-1) cdef).high < (data.getD (i+1) cdef).low)
    (huniq : ∀ j ∈ List.range' 1 (data.length - 2), j ≠ i → ¬ fvg_gap_at data j)
    (hflat : ∀ j ∈ List.range' 2 (data.length - 4),
        (data.getD j cdef).high ≠ (data.getD j cdef).low) :
    ∃ e, detect_fvg data tf = [e] ∧ e.direction = "bullish" ∧ e.active = true
      ∧ (10 ≤ data.length →
          ∃ pd, scan_pair [(tf, data)] = some pd
            ∧ pd.patterns.filter (fun p => p.ptype == "FVG") = [e]) := by
  have hdet : detect_fvg data tf =
      [{ ptype := "FVG"
       , price_range := [min (data.getD i cdef).low (data.getD (i-1) cdef).low,
                         max (data.getD i cdef).high (data.getD (i-1) cdef).high]
       , timeframe := tf, strength := "medium", direction := "bullish"
       , active := true }] := by
    unfold detect_fvg
    apply filterMap_unique _ _ (List.nodup_range' _ _) i hmem
    · dsimp only
      rw [if_pos (Or.inl hb), if_pos hb]
    · intro j hj hne
      dsimp only
      exact if_neg (huniq j hj hne)
  obtain ⟨obs, hobs, hob_ptype⟩ := detect_order_blocks_some data tf hflat
  have hst : scan_timeframe data tf =
      some (obs ++ detect_fvg data tf ++ detect_sfp data tf ++ detect_mss data tf) := by
    unfold scan_timeframe
    rw [hobs]
  refine ⟨_, hdet, rfl, rfl, ?_⟩
  intro h10
  have hsp : ∃ pd, scan_pair [(tf, data)] = some pd
      ∧ pd.patterns = obs ++ detect_fvg data tf ++ detect_sfp data tf ++ detect_mss data tf := by
    unfold scan_pair
    dsimp only [List.foldl_cons, List.foldl_nil]
    rw [if_neg (by omega), hst]
    dsimp only
    exact ⟨_, rfl, by rw [List.nil_append]⟩
  obtain ⟨pd, hpd, hpats⟩ := hsp
  refine ⟨pd, hpd, ?_⟩
  rw [hpats]
  rw [List.filter_append, List.filter_append, List.filter_append]
  have hob : obs.filter (fun p => p.ptype == "FVG") = [] := by
    apply List.filter_eq_nil_iff.mpr
    intro p hp
    rw [hob_ptype p hp]
    decide
  have hsfp : (detect_sfp data tf).filter (fun p => p.ptype == "FVG") = [] := by
    apply List.filter_eq_nil_iff.mpr
    intro p hp
    rw [detect_sfp_ptype data tf p hp]
    decide
  have hmss : (detect_mss data tf).filter (fun p => p.ptype == "FVG") = [] := by
    apply List.filter_eq_nil_iff.mpr
    intro p hp
    rw [detect_mss_ptype data tf p hp]
    decide
  have hfvg : (detect_fvg data tf).filter (fun p => p.ptype == "FVG") = detect_fvg data tf := by
    apply List.filter_eq_self.mpr
    intro p hp
    rw [detect_fvg_ptype data tf p hp]
    decide
  rw [hob, hsfp, hmss, hfvg, hdet]
  rfl

/-- C9 witness: the concrete ten-candle series c9_data has its only gap at
index 2 (bullish, with the following candle's low above the pre-gap high) and
no zero-range candle in the order-block scan range; the scanner completes and
reports exactly one FVG event, bullish and active. -/
theorem C9_witness :
    ∃ e, detect_fvg c9_data "15m" = [e] ∧ e.direction = "bullish" ∧ e.active = true
      ∧ (10 ≤ c9_data.length →
          ∃ pd, scan_pair [("15m", c9_data)] = some pd
            ∧ pd.patterns.filter (fun p => p.ptype == "FVG") = [e]) :=
  C9_single_bullish_fvg c9_data "15m" 2 (by decide) (by decide) (by decide) (by decide)
    (by decide)

end Doky
